import Mathlib

/-!
Shallow embedding of the Usability Testing Tool (`src/app.py`), a Streamlit
app that walks a participant through consent, a demographic questionnaire,
timed task trials and an exit questionnaire, appends each submission as a row
of one of four CSV datasets, and renders aggregate statistics over them.

Modelling conventions:
* Streamlit `st.session_state` becomes an explicit `SessionState` record;
  a key that may be absent or "falsy" is an `Option`.
* Each CSV file becomes a `List` of record structures inside `Store`;
  `save_to_csv` is an append at the end of the list, `load_from_csv` reads
  the list (an absent file is the empty list).
* Wall-clock instants (`time.time()`) and durations are rationals.
* The random token `str(uuid.uuid4())` is an oracle string passed in.
* A cell of the `duration_seconds` CSV column is a `DurCell`: a number,
  the float NaN (what pandas reads an empty CSV field as), or a string.
* User-facing `st.warning`/`st.success` outcomes become an `Outcome` value.
-/

namespace UsabilityTool

/-- A row of `consent_data.csv` (app.py lines 151-156). -/
structure ConsentRow where
  timestamp : String
  participant_id : String
  consent_given : Bool
  display_name : String
deriving Repr, DecidableEq

/-- A row of `demographic_data.csv` (app.py lines 195-205). -/
structure DemographicRow where
  timestamp : String
  participant_id : String
  name : String
  age : ℤ
  gender : String
  occupation : String
  education : String
  country : String
  familiarity_1to5 : ℕ
deriving Repr, DecidableEq

/-- A value of the `duration_seconds` column: a number, the float NaN
(how pandas loads an empty CSV field), or a raw string. -/
inductive DurCell where
  | num (q : ℚ)
  | nan
  | str (s : String)
deriving Repr, DecidableEq

/-- A row of `task_data.csv` (app.py lines 270-280). -/
structure TaskRow where
  timestamp : String
  participant_id : String
  task_name : String
  success : String
  duration_seconds : DurCell
  errors : ℤ
  perceived_difficulty_1to5 : ℕ
  task_satisfaction_1to5 : ℕ
  notes : String
deriving Repr, DecidableEq

/-- A row of `exit_data.csv` (app.py lines 322-334). -/
structure ExitRow where
  timestamp : String
  participant_id : String
  satisfaction_1to5 : ℕ
  ease_of_use_1to5 : ℕ
  efficiency_1to5 : ℕ
  learnability_1to5 : ℕ
  error_prevention_1to5 : ℕ
  nps_0to10 : ℤ
  likes : String
  dislikes : String
  suggestions : String
deriving Repr, DecidableEq

/-- The four append-only datasets under the `data/` folder. -/
structure Store where
  consent : List ConsentRow
  demographic : List DemographicRow
  task : List TaskRow
  exitData : List ExitRow
deriving Repr, DecidableEq

/-- The store before any submission: no CSV file exists yet. -/
def emptyStore : Store := ⟨[], [], [], []⟩

/-- The per-session mutable state kept in `st.session_state`.
`participant_id = none` models the key being absent; `some ""` a cleared
text box (both are "falsy" in Python). -/
structure SessionState where
  participant_id : Option String
  observer_mode : Bool
  task_start_time : Option ℚ
  task_duration : Option ℚ
deriving Repr, DecidableEq

/-- Session state when the app starts: no participant id generated yet,
observer mode defaults to true, timer never touched. -/
def initialSession : SessionState := ⟨none, true, none, none⟩

/-- User-visible outcome of an interaction (st.success / st.warning). -/
inductive Outcome where
  | saved
  | warnMustAgree
  | warnConsentRequired
  | warnTimerNotStarted
  | timerStarted
  | timerStopped (duration : ℚ)
deriving Repr, DecidableEq

/-- `f"P-{str(uuid.uuid4())[:8]}"` (app.py line 42): the id generated from
the uuid string `u`. Python slicing is character-based, so `[:8]` is a
take of the first 8 characters. -/
def genPid (u : String) : String := "P-" ++ ⟨u.data.take 8⟩

/-- The Python truthiness test of app.py line 41:
`"participant_id" not in st.session_state or not st.session_state["participant_id"]`.
The only falsy string is the empty string. -/
def pidMissing (s : SessionState) : Bool :=
  s.participant_id = none || s.participant_id = some ""

/-- `ensure_participant()` (app.py lines 39-42): generate a participant id
if none is set, never overwrite an existing (non-empty) one. -/
def ensure_participant (u : String) (s : SessionState) : SessionState :=
  if pidMissing s then { s with participant_id := some (genPid u) } else s

/-- Read `st.session_state["participant_id"]`; every submission path calls
`ensure_participant` first, so the key is present there. -/
def sessionPid (s : SessionState) : String := s.participant_id.getD ""

/-- `LIKERT_5` (app.py lines 47-53), the agreement-style 5-point scale,
as an association list in the dict's insertion order. -/
def LIKERT_5 : List (String × ℕ) :=
  [("1 - Strongly Disagree", 1), ("2 - Disagree", 2), ("3 - Neutral", 3),
   ("4 - Agree", 4), ("5 - Strongly Agree", 5)]

/-- `LIKERT_5_SIMPLE` (app.py lines 55-61), the quality-style 5-point scale. -/
def LIKERT_5_SIMPLE : List (String × ℕ) :=
  [("1 - Very Poor", 1), ("2 - Poor", 2), ("3 - Fair", 3),
   ("4 - Good", 4), ("5 - Excellent", 5)]

/-- Python dict lookup `SCALE[label]`. The select-slider widgets only ever
produce labels that are keys of the dict, so the default 0 branch is dead
on every reachable input (a missing key would be a programming error). -/
def likertLookup (scale : List (String × ℕ)) (label : String) : ℕ :=
  (scale.lookup label).getD 0

/-- The consent gate used before every dependent submission (app.py
lines 192, 266, 319): the submission goes through iff
`not (consent_df.empty or pid not in set(consent_df["participant_id"]))`. -/
def has_consented (consent : List ConsentRow) (pid : String) : Bool :=
  !consent.isEmpty && consent.any (fun r => r.participant_id == pid)

/-- "Submit Consent" (app.py lines 146-158). `checked` is the consent
checkbox; `ts` the UTC timestamp string; `u` the uuid oracle. -/
def submit_consent (checked : Bool) (display_name ts u : String)
    (s : SessionState) (store : Store) : SessionState × Store × Outcome :=
  if !checked then (s, store, .warnMustAgree)
  else
    let s' := ensure_participant u s
    let row : ConsentRow :=
      { timestamp := ts, participant_id := sessionPid s',
        consent_given := true, display_name := display_name }
    (s', { store with consent := store.consent ++ [row] }, .saved)

/-- The demographic form fields as they reach the save path (the
"Self-describe" gender substitution already applied by the widgets). -/
structure DemographicForm where
  name : String
  age : ℤ
  gender : String
  occupation : String
  education : String
  country : String
  familiarity_label : String
deriving Repr, DecidableEq

/-- "Submit Demographics" (app.py lines 187-207): consent gate, then append. -/
def submit_demographics (f : DemographicForm) (ts u : String)
    (s : SessionState) (store : Store) : SessionState × Store × Outcome :=
  let s' := ensure_participant u s
  let pid := sessionPid s'
  if !(has_consented store.consent pid) then (s', store, .warnConsentRequired)
  else
    let row : DemographicRow :=
      { timestamp := ts, participant_id := pid, name := f.name, age := f.age,
        gender := f.gender, occupation := f.occupation,
        education := f.education, country := f.country,
        familiarity_1to5 := likertLookup LIKERT_5_SIMPLE f.familiarity_label }
    (s', { store with demographic := store.demographic ++ [row] }, .saved)

/-- "Start Task Timer" (app.py lines 224-227): record the current time and
clear any previously measured duration. -/
def start_timer (now : ℚ) (s : SessionState) : SessionState × Outcome :=
  ({ s with task_start_time := some now, task_duration := none }, .timerStarted)

/-- "Stop Task Timer" (app.py lines 229-235). The guard is
`"task_start_time" in st.session_state and st.session_state["task_start_time"]`,
so an absent key and the falsy time 0.0 both take the warning branch. -/
def stop_timer (now : ℚ) (s : SessionState) : SessionState × Outcome :=
  match s.task_start_time with
  | none => (s, .warnTimerNotStarted)
  | some t =>
    if t = 0 then (s, .warnTimerNotStarted)
    else ({ s with task_duration := some (now - t) }, .timerStopped (now - t))

/-- Python `round(q, 3)`: round half to even at the third decimal. -/
def roundHalfEven (q : ℚ) : ℤ :=
  let f := ⌊q⌋
  let r := q - f
  if r < 1 / 2 then f
  else if 1 / 2 < r then f + 1
  else if f % 2 = 0 then f else f + 1

/-- `round(duration_val, 3)` as a rational. -/
def roundTo3 (q : ℚ) : ℚ := (roundHalfEven (q * 1000) : ℚ) / 1000

/-- The stored `duration_seconds` field (app.py line 275):
`round(duration_val, 3) if duration_val else ""`. Python truthiness makes
both `None` and the float `0.0` take the `""` branch. -/
def durationField (d : Option ℚ) : DurCell :=
  match d with
  | none => .str ""
  | some q => if q = 0 then .str "" else .num (roundTo3 q)

/-- The task form fields as they reach the save path. -/
structure TaskForm where
  selected_task : String
  success : String
  errors : ℤ
  difficulty_label : String
  satisfaction_label : String
  notes : String
deriving Repr, DecidableEq

/-- "Save Task Results" (app.py lines 261-289): consent gate, build the
record from the session's measured duration, append, then delete the
timer keys from the session. -/
def save_task_results (f : TaskForm) (ts u : String)
    (s : SessionState) (store : Store) : SessionState × Store × Outcome :=
  let s' := ensure_participant u s
  let pid := sessionPid s'
  if !(has_consented store.consent pid) then (s', store, .warnConsentRequired)
  else
    let row : TaskRow :=
      { timestamp := ts, participant_id := pid, task_name := f.selected_task,
        success := f.success,
        duration_seconds := durationField s'.task_duration,
        errors := f.errors,
        perceived_difficulty_1to5 := likertLookup LIKERT_5_SIMPLE f.difficulty_label,
        task_satisfaction_1to5 := likertLookup LIKERT_5_SIMPLE f.satisfaction_label,
        notes := f.notes }
    let s'' := { s' with task_start_time := none, task_duration := none }
    (s'', { store with task := store.task ++ [row] }, .saved)

/-- The exit questionnaire fields as they reach the save path. -/
structure ExitForm where
  satisfaction_label : String
  ease_label : String
  efficiency_label : String
  learnability_label : String
  error_prevention_label : String
  nps : ℤ
  likes : String
  dislikes : String
  suggestions : String
deriving Repr, DecidableEq

/-- "Submit Exit Questionnaire" (app.py lines 314-336). -/
def submit_exit (f : ExitForm) (ts u : String)
    (s : SessionState) (store : Store) : SessionState × Store × Outcome :=
  let s' := ensure_participant u s
  let pid := sessionPid s'
  if !(has_consented store.consent pid) then (s', store, .warnConsentRequired)
  else
    let row : ExitRow :=
      { timestamp := ts, participant_id := pid,
        satisfaction_1to5 := likertLookup LIKERT_5 f.satisfaction_label,
        ease_of_use_1to5 := likertLookup LIKERT_5 f.ease_label,
        efficiency_1to5 := likertLookup LIKERT_5 f.efficiency_label,
        learnability_1to5 := likertLookup LIKERT_5 f.learnability_label,
        error_prevention_1to5 := likertLookup LIKERT_5 f.error_prevention_label,
        nps_0to10 := f.nps, likes := f.likes, dislikes := f.dislikes,
        suggestions := f.suggestions }
    (s', { store with exitData := store.exitData ++ [row] }, .saved)

/-!
Report aggregator (app.py lines 341-418). The pandas pipeline is embedded
over `List TaskRow`. `groupby("task_name")` sorts the group keys
ascending (the pandas default `sort=True`); a group's `.mean()` skips NaN
values and is itself NaN when the group has no non-NaN value.
-/

/-- `success_map` (app.py line 378). -/
def success_map : List (String × ℚ) :=
  [("Success", 1), ("Partial", 1 / 2), ("Fail", 0), ("Abandoned", 0)]

/-- `tmp["success"].map(success_map).fillna(0.0)` (app.py line 380): an
outcome outside the map becomes NaN and `fillna` turns it into 0.0. -/
def successScore (s : String) : ℚ := (success_map.lookup s).getD 0

/-- Unweighted arithmetic mean of a list of rationals. -/
def listMean (l : List ℚ) : ℚ := l.sum / l.length

/-- The ascending code-point order on strings used by `groupby`'s key
sort, spelled on the character lists (Python compares strings by code
points, which is the lexicographic order of `data`). -/
def keyAscend (a b : String) : Prop := a.data ≤ b.data

instance : DecidableRel keyAscend := fun a b =>
  inferInstanceAs (Decidable (a.data ≤ b.data))

instance : IsTotal String keyAscend := ⟨fun a b => le_total a.data b.data⟩

instance : IsTrans String keyAscend := ⟨fun _ _ _ h h₂ => le_trans h h₂⟩

/-- The descending-by-value order of `.sort_values(ascending=False)`. The
pandas sort leaves the order of tied entries unspecified; the embedding
uses a stable sort, one deterministic refinement of that behaviour. -/
def scoreDescend (a b : String × ℚ) : Prop := b.2 ≤ a.2

instance : DecidableRel scoreDescend := fun a b =>
  inferInstanceAs (Decidable (b.2 ≤ a.2))

instance : IsTotal (String × ℚ) scoreDescend := ⟨fun a b => le_total b.2 a.2⟩

instance : IsTrans (String × ℚ) scoreDescend :=
  ⟨fun _ _ _ h h₂ => le_trans h₂ h⟩

/-- The group keys of `groupby("task_name")`: the distinct task names,
sorted ascending (the pandas default `sort=True`; the keys are distinct,
so any sorting algorithm gives this list). -/
def groupKeys (rows : List TaskRow) : List String :=
  List.insertionSort keyAscend ((rows.map (fun r => r.task_name)).dedup)

/-- `task_df.groupby("task_name")["success_score"].mean()` followed by
`.sort_values(ascending=False)` (app.py line 381): per-task mean success
score, reordered descending by score. -/
def success_by_task (rows : List TaskRow) : List (String × ℚ) :=
  List.insertionSort scoreDescend
    ((groupKeys rows).map (fun n =>
      (n, listMean ((rows.filter (fun r => r.task_name == n)).map
            (fun r => successScore r.success)))))

/-- Python `str.strip()`: drop whitespace characters from both ends. -/
def pyStrip (s : String) : String :=
  ⟨((s.data.dropWhile Char.isWhitespace).reverse.dropWhile
      Char.isWhitespace).reverse⟩

/-- The row filter of app.py line 389:
`isinstance(x, (int, float)) or (isinstance(x, str) and x.strip() != "")`.
NaN is a float, so it passes. -/
def keepCell : DurCell → Bool
  | .num _ => true
  | .nan => true
  | .str s => pyStrip s != ""

/-- Is `c` a decimal digit character. -/
def digitsOnly (cs : List Char) : Bool := cs.all (fun c => c.isDigit)

/-- Numeric value of a digit string (most significant first). -/
def digitsVal (cs : List Char) : ℕ :=
  cs.foldl (fun a c => a * 10 + (c.toNat - 48)) 0

/-- Parse a Python float literal of the shape `[+-]digits[.digits]`
(either side of the dot may be empty, not both), after stripping
whitespace. Models the string branch of `pd.to_numeric`; the exotic forms
(`1e3`, `inf`, `nan`) never occur in data this program writes and are
mapped to `none` (for `nan` that even agrees with the exclusion below). -/
def parseNumStr (s : String) : Option ℚ :=
  let t := pyStrip s
  let signed : ℚ × List Char :=
    match t.toList with
    | '-' :: cs => (-1, cs)
    | '+' :: cs => (1, cs)
    | cs => (1, cs)
  match (signed.2.splitOn '.') with
  | [a] =>
    if a ≠ [] ∧ digitsOnly a then some (signed.1 * digitsVal a) else none
  | [a, b] =>
    if (a ≠ [] ∨ b ≠ []) ∧ digitsOnly a ∧ digitsOnly b then
      some (signed.1 * ((digitsVal a : ℚ) + (digitsVal b : ℚ) / 10 ^ b.length))
    else none
  | _ => none

/-- `pd.to_numeric(x, errors="coerce")` on one cell: numbers stay, NaN
stays NaN, strings are parsed and unparsable ones coerced to NaN.
`none` plays the role of NaN. -/
def to_numeric : DurCell → Option ℚ
  | .num q => some q
  | .nan => none
  | .str s => parseNumStr s

/-- The numeric duration values of task `n`: its rows surviving the line
389 filter, converted by `to_numeric`, with the NaN results dropped (a
pandas group mean skips NaN). -/
def numericDurations (rows : List TaskRow) (n : String) : List ℚ :=
  (((rows.filter (fun r => keepCell r.duration_seconds)).filter
      (fun r => r.task_name == n)).map
    (fun r => to_numeric r.duration_seconds)).filterMap id

/-- `avg_dur` (app.py lines 387-392): filter the rows, convert to numeric,
`groupby("task_name").mean()` (NaN-skipping), then `.dropna()` removing
every task whose group mean is NaN, i.e. has no numeric value at all. -/
def avg_dur (rows : List TaskRow) : List (String × ℚ) :=
  let dur := rows.filter (fun r => keepCell r.duration_seconds)
  (List.insertionSort keyAscend
      ((dur.map (fun r => r.task_name)).dedup)).filterMap
    (fun n =>
      let vals := ((dur.filter (fun r => r.task_name == n)).map
          (fun r => to_numeric r.duration_seconds)).filterMap id
      if vals.isEmpty then none else some (n, listMean vals))

/-- One user interaction with the app, for whole-run reasoning. -/
inductive Action where
  | consentSubmit (checked : Bool) (display_name ts u : String)
  | demographicsSubmit (f : DemographicForm) (ts u : String)
  | timerStart (now : ℚ)
  | timerStop (now : ℚ)
  | taskSave (f : TaskForm) (ts u : String)
  | exitSubmit (f : ExitForm) (ts u : String)
deriving Repr

/-- Dispatch one interaction on the session and the datasets. -/
def step (a : Action) (p : SessionState × Store) : SessionState × Store :=
  match a with
  | .consentSubmit c n ts u =>
      let r := submit_consent c n ts u p.1 p.2; (r.1, r.2.1)
  | .demographicsSubmit f ts u =>
      let r := submit_demographics f ts u p.1 p.2; (r.1, r.2.1)
  | .timerStart now => ((start_timer now p.1).1, p.2)
  | .timerStop now => ((stop_timer now p.1).1, p.2)
  | .taskSave f ts u =>
      let r := save_task_results f ts u p.1 p.2; (r.1, r.2.1)
  | .exitSubmit f ts u =>
      let r := submit_exit f ts u p.1 p.2; (r.1, r.2.1)

/-- Run a whole sequence of interactions. -/
def runActions (acts : List Action) (p : SessionState × Store) :
    SessionState × Store :=
  acts.foldl (fun q a => step a q) p

/-- A task row with the given name, outcome and duration cell and fixed
neutral remaining fields, for concrete test scenarios. -/
def sampleTaskRow (n s : String) (d : DurCell) : TaskRow :=
  { timestamp := "2026-01-01 00:00:00", participant_id := "P-01234567",
    task_name := n, success := s, duration_seconds := d, errors := 0,
    perceived_difficulty_1to5 := 3, task_satisfaction_1to5 := 4, notes := "" }

/-- The success-aggregation scenario rows of the spec:
[("T1","Success"), ("T1","Fail"), ("T2","Partial")]. -/
def successExampleRows : List TaskRow :=
  [sampleTaskRow "T1" "Success" (.str ""), sampleTaskRow "T1" "Fail" (.str ""),
   sampleTaskRow "T2" "Partial" (.str "")]

/-- The duration-aggregation scenario rows of the spec:
[("T1","2.0"), ("T1",""), ("T1","4.0")]. -/
def durationExampleRows : List TaskRow :=
  [sampleTaskRow "T1" "Success" (.str "2.0"),
   sampleTaskRow "T1" "Success" (.str ""),
   sampleTaskRow "T1" "Success" (.str "4.0")]

/-- A concrete demographic form, for witness scenarios. -/
def sampleDemographicForm : DemographicForm :=
  ⟨"Ann", 25, "Female", "Student", "Bachelor", "", "3 - Fair"⟩

/-- A concrete task form, for witness scenarios. -/
def sampleTaskForm : TaskForm :=
  ⟨"Task 1: Find an item", "Success", 0, "3 - Fair", "4 - Good", ""⟩

/-- A concrete exit form, for witness scenarios. -/
def sampleExitForm : ExitForm :=
  ⟨"4 - Agree", "4 - Agree", "4 - Agree", "4 - Agree", "3 - Neutral", 7,
   "", "", ""⟩

/-! ### Helper lemmas -/

theorem genPid_data (u : String) :
    (genPid u).data = 'P' :: '-' :: u.data.take 8 := rfl

theorem genPid_ne_empty (u : String) : genPid u ≠ "" := by
  intro h
  have h₂ := congrArg String.data h
  rw [genPid_data] at h₂
  simp at h₂

theorem pidMissing_after_gen (u : String) (s : SessionState) :
    pidMissing { s with participant_id := some (genPid u) } = false := by
  simp [pidMissing, genPid_ne_empty u]

/-! ### Claim theorems -/

/-- C6: `ensure_participant()` is idempotent: when no (non-empty)
participant id is set it generates one of the form "P-" followed by the
8-character token sliced from the uuid string, it never overwrites an
existing id, and a second call in the same session leaves the id of the
first call in place. -/
theorem C6_ensure_participant_idempotent (u₁ u₂ u : String) (s : SessionState)
    (hu : 8 ≤ u.length) :
    ensure_participant u₂ (ensure_participant u₁ s) = ensure_participant u₁ s ∧
    (pidMissing s = true →
      (ensure_participant u₁ s).participant_id = some (genPid u₁)) ∧
    (pidMissing s = false → ensure_participant u₁ s = s) ∧
    ∃ t : String, t.length = 8 ∧ genPid u = "P-" ++ t := by
  refine ⟨?_, ?_, ?_, ⟨⟨u.data.take 8⟩, ?_, rfl⟩⟩
  · by_cases h : pidMissing s = true
    · have h₁ : ensure_participant u₁ s =
          { s with participant_id := some (genPid u₁) } := by
        rw [ensure_participant, if_pos h]
      rw [h₁, ensure_participant, pidMissing_after_gen, if_neg (by simp)]
    · have h₁ : ensure_participant u₁ s = s := by
        rw [ensure_participant, if_neg h]
      rw [h₁, ensure_participant, if_neg h]
  · intro h
    rw [ensure_participant, if_pos h]
  · intro h
    rw [ensure_participant, if_neg (by simp [h])]
  · have h₂ : u.length = u.data.length := rfl
    simp only [String.length_mk, List.length_take]
    omega

/-- C6 witness: the theorem instantiated at a concrete fresh session and
the 36-character uuid string Python would supply. -/
theorem C6_ensure_participant_idempotent_witness :
    ensure_participant "f81d4fae" (ensure_participant
        "f81d4fae-7dec-11d0-a765-00a0c91e6bf6" initialSession) =
      ensure_participant "f81d4fae-7dec-11d0-a765-00a0c91e6bf6" initialSession ∧
    (pidMissing initialSession = true →
      (ensure_participant "f81d4fae-7dec-11d0-a765-00a0c91e6bf6"
          initialSession).participant_id =
        some (genPid "f81d4fae-7dec-11d0-a765-00a0c91e6bf6")) ∧
    (pidMissing initialSession = false →
      ensure_participant "f81d4fae-7dec-11d0-a765-00a0c91e6bf6" initialSession =
        initialSession) ∧
    ∃ t : String, t.length = 8 ∧
      genPid "f81d4fae-7dec-11d0-a765-00a0c91e6bf6" = "P-" ++ t :=
  C6_ensure_participant_idempotent "f81d4fae-7dec-11d0-a765-00a0c91e6bf6"
    "f81d4fae" "f81d4fae-7dec-11d0-a765-00a0c91e6bf6" initialSession (by decide)

/-- C7: both Likert label-to-integer mappings are total functions on their
fixed 5-label domain (5 entries, no duplicate label), bijective onto
{1..5} (the value list is exactly [1,2,3,4,5], so each integer comes from
exactly one label), and each label is mapped to its leading digit. -/
theorem C7_likert_bijective :
    (LIKERT_5.length = 5 ∧ (LIKERT_5.map Prod.fst).Nodup ∧
      LIKERT_5.map Prod.snd = [1, 2, 3, 4, 5] ∧
      (∀ p ∈ LIKERT_5, (p.1.data.headD '0').toNat - 48 = p.2) ∧
      (∀ n ∈ [1, 2, 3, 4, 5],
        (LIKERT_5.filter (fun p => p.2 == n)).length = 1)) ∧
    (LIKERT_5_SIMPLE.length = 5 ∧ (LIKERT_5_SIMPLE.map Prod.fst).Nodup ∧
      LIKERT_5_SIMPLE.map Prod.snd = [1, 2, 3, 4, 5] ∧
      (∀ p ∈ LIKERT_5_SIMPLE, (p.1.data.headD '0').toNat - 48 = p.2) ∧
      (∀ n ∈ [1, 2, 3, 4, 5],
        (LIKERT_5_SIMPLE.filter (fun p => p.2 == n)).length = 1)) := by
  decide

/-- C8: stopping the timer when it was never started is a no-op with a
warning — the session is returned unchanged; stopping after a start at a
(positive, as `time.time()` is) instant stores elapsed = now − start. -/
theorem C8_stop_timer_semantics (now now₂ : ℚ) (s : SessionState)
    (hns : s.task_start_time = none) (hpos : 0 < now) :
    stop_timer now₂ s = (s, Outcome.warnTimerNotStarted) ∧
    stop_timer now₂ (start_timer now s).1 =
      (({ s with task_start_time := some now, task_duration := some (now₂ - now) } : SessionState),
        Outcome.timerStopped (now₂ - now)) := by
  constructor
  · rw [stop_timer, hns]
  · rw [start_timer, stop_timer]
    simp [hpos.ne']

/-- C8 witness: the theorem at a fresh session, start at time 1, stop at
time 5. -/
theorem C8_stop_timer_semantics_witness :
    stop_timer 5 initialSession = (initialSession, Outcome.warnTimerNotStarted) ∧
    stop_timer 5 (start_timer 1 initialSession).1 =
      (({ initialSession with task_start_time := some 1, task_duration := some (5 - 1) } : SessionState),
        Outcome.timerStopped (5 - 1)) :=
  C8_stop_timer_semantics 1 5 initialSession rfl (by decide)

/-- C9: starting the task timer always clears the previously measured
duration: whatever the session held, after start the last-measured
duration is none. -/
theorem C9_start_clears_duration (now : ℚ) (s : SessionState) :
    ((start_timer now s).1).task_duration = none := rfl

/-- C4 counterexample: a measured duration of exactly 0.0 is falsy in
Python, so the saved `duration_seconds` is the empty marker, not the
rounded measured value — the claim's "if a duration was measured, the
stored value is that duration" fails at 0. -/
theorem C4_measured_zero_counterexample :
    durationField (some 0) = DurCell.str "" ∧
    durationField (some 0) ≠ DurCell.num (roundTo3 0) := by
  refine ⟨rfl, ?_⟩
  intro h
  simp [durationField] at h

/-- C4 (amended): an unmeasured duration is stored as the explicit empty
marker "" (not zero, not omitted), and the marker differs from every
stored number; a measured **nonzero** duration is stored as its value
rounded to 3 decimals; but a measured duration of exactly 0.0 is also
stored as the marker (Python truthiness), so a true zero-duration
measurement is not distinguishable from an unmeasured one. -/
theorem C4_duration_marker (d : ℚ) (hd : d ≠ 0) :
    durationField none = DurCell.str "" ∧
    durationField (some 0) = DurCell.str "" ∧
    durationField (some d) = DurCell.num (roundTo3 d) ∧
    ∀ q : ℚ, DurCell.str "" ≠ DurCell.num q := by
  refine ⟨rfl, rfl, ?_, ?_⟩
  · simp [durationField, hd]
  · intro q h
    cases h

/-- C4 witness: the amended statement at the measured duration 2. -/
theorem C4_duration_marker_witness :
    durationField none = DurCell.str "" ∧
    durationField (some 0) = DurCell.str "" ∧
    durationField (some 2) = DurCell.num (roundTo3 2) ∧
    ∀ q : ℚ, DurCell.str "" ≠ DurCell.num q :=
  C4_duration_marker 2 (by decide)

theorem has_consented_false_of_not_mem {consent : List ConsentRow}
    {pid : String} (h : pid ∉ consent.map (fun r => r.participant_id)) :
    has_consented consent pid = false := by
  rw [has_consented]
  have h₂ : consent.any (fun r => r.participant_id == pid) = false := by
    rw [List.any_eq_false]
    intro r hr
    simp only [beq_iff_eq]
    intro hEq
    exact h (List.mem_map.mpr ⟨r, hr, hEq⟩)
  rw [h₂, Bool.and_false]

/-- C1: every demographic, task or exit submission made while the consent
dataset has no row carrying the session's participant id is rejected: the
consent-required warning is surfaced and the whole store — all four
datasets — is returned unchanged. -/
theorem C1_consent_gate_blocks (f : DemographicForm) (g : TaskForm)
    (e : ExitForm) (ts u : String) (s : SessionState) (store : Store)
    (hpid : sessionPid (ensure_participant u s) ∉
      store.consent.map (fun r => r.participant_id)) :
    submit_demographics f ts u s store =
      (ensure_participant u s, store, Outcome.warnConsentRequired) ∧
    save_task_results g ts u s store =
      (ensure_participant u s, store, Outcome.warnConsentRequired) ∧
    submit_exit e ts u s store =
      (ensure_participant u s, store, Outcome.warnConsentRequired) := by
  have hc := has_consented_false_of_not_mem hpid
  refine ⟨?_, ?_, ?_⟩
  · rw [submit_demographics]
    simp only [hc, Bool.not_false, if_true]
  · rw [save_task_results]
    simp only [hc, Bool.not_false, if_true]
  · rw [submit_exit]
    simp only [hc, Bool.not_false, if_true]

/-- C1 witness: the three rejections at a fresh session against the empty
store, whose consent dataset has no row at all. -/
theorem C1_consent_gate_blocks_witness :
    submit_demographics sampleDemographicForm "2026-01-01 00:00:00"
        "f81d4fae-7dec-11d0-a765-00a0c91e6bf6" initialSession emptyStore =
      (ensure_participant "f81d4fae-7dec-11d0-a765-00a0c91e6bf6" initialSession,
        emptyStore, Outcome.warnConsentRequired) ∧
    save_task_results sampleTaskForm "2026-01-01 00:00:00"
        "f81d4fae-7dec-11d0-a765-00a0c91e6bf6" initialSession emptyStore =
      (ensure_participant "f81d4fae-7dec-11d0-a765-00a0c91e6bf6" initialSession,
        emptyStore, Outcome.warnConsentRequired) ∧
    submit_exit sampleExitForm "2026-01-01 00:00:00"
        "f81d4fae-7dec-11d0-a765-00a0c91e6bf6" initialSession emptyStore =
      (ensure_participant "f81d4fae-7dec-11d0-a765-00a0c91e6bf6" initialSession,
        emptyStore, Outcome.warnConsentRequired) :=
  C1_consent_gate_blocks sampleDemographicForm sampleTaskForm sampleExitForm
    "2026-01-01 00:00:00" "f81d4fae-7dec-11d0-a765-00a0c91e6bf6"
    initialSession emptyStore (by decide)

/-- C5: `has_consented` returns true iff the consent dataset is non-empty
and has a row whose participant id is the argument; right after a valid
(checkbox ticked) consent submission it is true for the session's pid,
and its value at every other pid is what it was before the submission. -/
theorem C5_has_consented_spec (consent : List ConsentRow)
    (pid q display_name ts u : String) (s : SessionState) (store : Store)
    (hq : q ≠ sessionPid (submit_consent true display_name ts u s store).1) :
    (has_consented consent pid = true ↔
      consent ≠ [] ∧ ∃ r ∈ consent, r.participant_id = pid) ∧
    has_consented (submit_consent true display_name ts u s store).2.1.consent
      (sessionPid (submit_consent true display_name ts u s store).1) = true ∧
    has_consented (submit_consent true display_name ts u s store).2.1.consent q =
      has_consented store.consent q := by
  refine ⟨?_, ?_, ?_⟩
  · rw [has_consented]
    simp [Bool.and_eq_true, Bool.not_eq_true', List.isEmpty_eq_false,
      List.any_eq_true, beq_iff_eq, ne_eq]
  · rw [submit_consent]
    simp [has_consented]
  · rw [submit_consent] at hq ⊢
    simp only [Bool.not_true, Bool.false_eq_true, if_false] at hq ⊢
    have hQ : (sessionPid (ensure_participant u s) == q) = false :=
      beq_eq_false_iff_ne.mpr (fun h => hq h.symm)
    rw [has_consented, has_consented]
    cases store.consent with
    | nil => simp [hQ]
    | cons a l => simp [hQ, Bool.or_assoc]

/-- C5 witness: after a fresh session consents against the empty store,
its generated pid has consented, the unrelated pid "Q" still has not, and
the membership characterisation holds on the resulting one-row dataset. -/
theorem C5_has_consented_spec_witness :
    (has_consented
        (submit_consent true "Ann" "2026-01-01 00:00:00"
            "f81d4fae-7dec-11d0-a765-00a0c91e6bf6" initialSession
            emptyStore).2.1.consent "P-f81d4fae" = true ↔
      (submit_consent true "Ann" "2026-01-01 00:00:00"
          "f81d4fae-7dec-11d0-a765-00a0c91e6bf6" initialSession
          emptyStore).2.1.consent ≠ [] ∧
      ∃ r ∈ (submit_consent true "Ann" "2026-01-01 00:00:00"
          "f81d4fae-7dec-11d0-a765-00a0c91e6bf6" initialSession
          emptyStore).2.1.consent, r.participant_id = "P-f81d4fae") ∧
    has_consented
      (submit_consent true "Ann" "2026-01-01 00:00:00"
          "f81d4fae-7dec-11d0-a765-00a0c91e6bf6" initialSession
          emptyStore).2.1.consent
      (sessionPid (submit_consent true "Ann" "2026-01-01 00:00:00"
          "f81d4fae-7dec-11d0-a765-00a0c91e6bf6" initialSession
          emptyStore).1) = true ∧
    has_consented
      (submit_consent true "Ann" "2026-01-01 00:00:00"
          "f81d4fae-7dec-11d0-a765-00a0c91e6bf6" initialSession
          emptyStore).2.1.consent "Q" =
      has_consented emptyStore.consent "Q" :=
  C5_has_consented_spec
    (submit_consent true "Ann" "2026-01-01 00:00:00"
        "f81d4fae-7dec-11d0-a765-00a0c91e6bf6" initialSession
        emptyStore).2.1.consent
    "P-f81d4fae" "Q" "Ann" "2026-01-01 00:00:00"
    "f81d4fae-7dec-11d0-a765-00a0c91e6bf6" initialSession emptyStore
    (by decide)

theorem step_consent_rows (a : Action) (p : SessionState × Store) :
    (step a p).2.consent = p.2.consent ∨
    ∃ row : ConsentRow, row.consent_given = true ∧
      (step a p).2.consent = p.2.consent ++ [row] := by
  cases a with
  | consentSubmit c n ts u =>
    by_cases hc : c = true
    · refine Or.inr ?_
      subst hc
      exact ⟨_, rfl, rfl⟩
    · refine Or.inl ?_
      have hc₂ : c = false := by
        cases c
        · rfl
        · exact absurd rfl hc
      subst hc₂
      rfl
  | demographicsSubmit f ts u =>
    refine Or.inl ?_
    rw [step, submit_demographics]
    by_cases h : has_consented p.2.consent (sessionPid (ensure_participant u p.1)) = true <;>
      simp [h]
  | timerStart now => exact Or.inl rfl
  | timerStop now => exact Or.inl rfl
  | taskSave f ts u =>
    refine Or.inl ?_
    rw [step, save_task_results]
    by_cases h : has_consented p.2.consent (sessionPid (ensure_participant u p.1)) = true <;>
      simp [h]
  | exitSubmit f ts u =>
    refine Or.inl ?_
    rw [step, submit_exit]
    by_cases h : has_consented p.2.consent (sessionPid (ensure_participant u p.1)) = true <;>
      simp [h]

theorem runActions_consent_inv (acts : List Action) (p : SessionState × Store)
    (hinv : ∀ r ∈ p.2.consent, r.consent_given = true) :
    ∀ r ∈ (runActions acts p).2.consent, r.consent_given = true := by
  induction acts generalizing p with
  | nil => exact hinv
  | cons a as ih =>
    refine ih (step a p) ?_
    rcases step_consent_rows a p with h | ⟨row, hrow, h⟩
    · rw [h]
      exact hinv
    · rw [h]
      intro r hr
      rcases List.mem_append.mp hr with h₂ | h₂
      · exact hinv r h₂
      · rw [List.mem_singleton.mp h₂, hrow]

/-- C10: in every run of the app starting from no data, every record of
the consent dataset has consent_given = true — the submission path writes
the constant true and the refused-checkbox path writes nothing, so no
record of a refused consent can exist. -/
theorem C10_consent_rows_all_true (acts : List Action) (s : SessionState) :
    ∀ r ∈ (runActions acts (s, emptyStore)).2.consent,
      r.consent_given = true :=
  runActions_consent_inv acts (s, emptyStore) (by simp [emptyStore])

/-- C10 witness: the run consisting of one accepted consent submission,
checked on the concrete row it appends. -/
theorem C10_consent_rows_all_true_witness :
    ({ timestamp := "2026-01-01 00:00:00", participant_id := "P-f81d4fae",
        consent_given := true, display_name := "Ann" } : ConsentRow).consent_given
      = true :=
  C10_consent_rows_all_true
    [Action.consentSubmit true "Ann" "2026-01-01 00:00:00"
        "f81d4fae-7dec-11d0-a765-00a0c91e6bf6"]
    initialSession
    { timestamp := "2026-01-01 00:00:00", participant_id := "P-f81d4fae",
      consent_given := true, display_name := "Ann" }
    (by decide)

theorem mem_success_by_task (rows : List TaskRow) (n : String) (m : ℚ) :
    (n, m) ∈ success_by_task rows ↔
      n ∈ rows.map (fun r => r.task_name) ∧
      m = listMean ((rows.filter (fun r => r.task_name == n)).map
            (fun r => successScore r.success)) := by
  rw [success_by_task, List.mem_insertionSort, List.mem_map]
  constructor
  · rintro ⟨k, hk, hEq⟩
    rw [groupKeys, List.mem_insertionSort, List.mem_dedup] at hk
    injection hEq with h₁ h₂
    subst h₁
    exact ⟨hk, h₂.symm⟩
  · rintro ⟨hn, hm⟩
    refine ⟨n, ?_, ?_⟩
    · rw [groupKeys, List.mem_insertionSort, List.mem_dedup]
      exact hn
    · rw [hm]

theorem success_by_task_sorted (rows : List TaskRow) :
    (success_by_task rows).Pairwise (fun a b => b.2 ≤ a.2) := by
  have h := List.sorted_insertionSort scoreDescend
    ((groupKeys rows).map (fun n =>
      (n, listMean ((rows.filter (fun r => r.task_name == n)).map
            (fun r => successScore r.success)))))
  exact h

unseal Rat.mul Rat.inv Rat.add Rat.sub in
/-- C3: the success aggregate assigns each task the unweighted mean of its
rows' success scores — Success scoring 1, Partial 1/2, Fail 0, Abandoned 0
and any unrecognized or missing outcome 0 — and lists the per-task means
in descending order of score; on the spec's scenario rows both T1 and T2
get mean 1/2. -/
theorem C3_success_score_aggregation (rows : List TaskRow) :
    (success_by_task rows).Pairwise (fun a b => b.2 ≤ a.2) ∧
    (∀ n m, (n, m) ∈ success_by_task rows ↔
      n ∈ rows.map (fun r => r.task_name) ∧
      m = listMean ((rows.filter (fun r => r.task_name == n)).map
            (fun r => successScore r.success))) ∧
    successScore "Success" = 1 ∧ successScore "Partial" = 1 / 2 ∧
    successScore "Fail" = 0 ∧ successScore "Abandoned" = 0 ∧
    successScore "Gave up" = 0 ∧ successScore "" = 0 ∧
    success_by_task successExampleRows = [("T1", 1 / 2), ("T2", 1 / 2)] :=
  ⟨success_by_task_sorted rows, mem_success_by_task rows, by decide, by decide,
    by decide, by decide, by decide, by decide, by decide⟩

theorem numericDurations_ne_nil_mem {rows : List TaskRow} {n : String}
    (h : numericDurations rows n ≠ []) :
    n ∈ (rows.filter (fun r => keepCell r.duration_seconds)).map
      (fun r => r.task_name) := by
  rw [numericDurations] at h
  cases hf : (rows.filter (fun r => keepCell r.duration_seconds)).filter
      (fun r => r.task_name == n) with
  | nil => rw [hf] at h; exact absurd rfl h
  | cons r t =>
    have hr : r ∈ (rows.filter (fun r => keepCell r.duration_seconds)).filter
        (fun r => r.task_name == n) := by
      rw [hf]; exact List.mem_cons_self r t
    obtain ⟨hr₂, hr₃⟩ := List.mem_filter.mp hr
    exact List.mem_map.mpr ⟨r, hr₂, beq_iff_eq.mp hr₃⟩

theorem mem_avg_dur (rows : List TaskRow) (n : String) (m : ℚ) :
    (n, m) ∈ avg_dur rows ↔
      numericDurations rows n ≠ [] ∧
      m = listMean (numericDurations rows n) := by
  rw [avg_dur, List.mem_filterMap]
  constructor
  · rintro ⟨k, _, hEq⟩
    by_cases hk : ((((rows.filter (fun r => keepCell r.duration_seconds)).filter
        (fun r => r.task_name == k)).map
          (fun r => to_numeric r.duration_seconds)).filterMap id).isEmpty = true
    · rw [if_pos hk] at hEq
      cases hEq
    · rw [if_neg hk] at hEq
      rw [Option.some.injEq, Prod.mk.injEq] at hEq
      obtain ⟨h₁, h₂⟩ := hEq
      subst h₁
      rw [Bool.not_eq_true, List.isEmpty_eq_false] at hk
      exact ⟨hk, h₂.symm⟩
  · rintro ⟨hne, hm⟩
    refine ⟨n, ?_, ?_⟩
    · rw [List.mem_insertionSort, List.mem_dedup]
      exact numericDurations_ne_nil_mem hne
    · rw [if_neg (by rw [Bool.not_eq_true, List.isEmpty_eq_false]; exact hne),
        hm]
      rfl

unseal Rat.mul Rat.inv Rat.add Rat.sub in
/-- C2: the duration aggregate averages, per task, only the rows whose
duration_seconds converts to a number — empty strings, NaN cells and
non-numeric strings contribute nothing rather than zero — and a task with
no numeric duration at all is absent from the aggregate; on the spec's
scenario rows ("2.0", "", "4.0") task T1 gets mean 3. -/
theorem C2_duration_aggregation (rows : List TaskRow) :
    (∀ n m, (n, m) ∈ avg_dur rows ↔
      numericDurations rows n ≠ [] ∧
      m = listMean (numericDurations rows n)) ∧
    to_numeric (DurCell.str "") = none ∧ to_numeric DurCell.nan = none ∧
    to_numeric (DurCell.str "abc") = none ∧
    avg_dur durationExampleRows = [("T1", 3)] ∧
    avg_dur [sampleTaskRow "T2" "Success" (DurCell.str "")] = [] :=
  ⟨mem_avg_dur rows, by decide, by decide, by decide, by decide, by decide⟩

end UsabilityTool
